import Mathlib

/-!
Verification of the credential-validation and mailbox-probing core of the
SMTP-Tester / gmail_checker repository.

The Python modules under `gmail_checker/` are shallowly embedded as Lean
definitions.  Network and external-library behaviour (imaplib, the Google
OAuth2 client library, the People API) is modelled by an explicit
environment `Env` of oracle functions; a Python exception with message `m`
raised by a primitive is modelled as an `error m` / `exc m` outcome of the
corresponding oracle, and `try/except` blocks become `match` expressions on
those outcomes.  Wall-clock fields (`timestamp`, `created_at`,
`processing_time`) are omitted: no verified property mentions them.
Network side effects relevant to the properties (connection attempts,
authorization-exchange attempts, logout attempts) are recorded as an
explicit event trace returned alongside each value.
-/

instance {ε α : Type} [DecidableEq ε] [DecidableEq α] : DecidableEq (Except ε α) := fun x y =>
  match x, y with
  | Except.ok a, Except.ok b => decidable_of_iff (a = b) (by simp)
  | Except.error a, Except.error b => decidable_of_iff (a = b) (by simp)
  | Except.ok _, Except.error _ => isFalse (by simp)
  | Except.error _, Except.ok _ => isFalse (by simp)

/-- Opaque handle for an `imaplib.IMAP4_SSL` connection object. -/
abbrev Conn := Nat

/-- Opaque handle for a `google_auth_oauthlib` flow object. -/
abbrev AuthFlow := Nat

/-- Opaque handle for a `google.oauth2.credentials.Credentials` object. -/
abbrev Creds := Nat

/-- Result of a Python call that may raise `imaplib.IMAP4.error` or any
other exception; `msg` is `str(e)`. -/
inductive PyOutcome (α : Type) where
  | ok (a : α)
  | imapError (msg : String)
  | exc (msg : String)
deriving Repr

/-- Observable network side effects of the core. -/
inductive NetEvent where
  | connectAttempt (server : String) (port : Nat)
  | exchangeAttempt
  | logoutAttempt
deriving DecidableEq, Repr

/-- `models/credential_model.py`: `AuthType`. -/
inductive AuthType where
  | APP_PASSWORD
  | OAUTH2
deriving DecidableEq, Repr

/-- `models/credential_model.py`: `CredentialStatus`. -/
inductive CredentialStatus where
  | PENDING
  | AUTHENTICATED
  | FAILED
deriving DecidableEq, Repr

/-- `models/result_model.py`: `AuthStatus`. -/
inductive AuthStatus where
  | SUCCESS
  | FAILED
  | PENDING
deriving DecidableEq, Repr

/-- The keys actually present in an OAuth2 client-secret JSON payload:
whether the `installed` section exists, and which keys that section has. -/
structure ClientSecretData where
  hasInstalled : Bool
  installedKeys : List String
deriving DecidableEq, Repr

/-- `CredentialModel.auth_data`: a password string for `APP_PASSWORD`, a
client-secret dictionary for `OAUTH2`. -/
inductive AuthData where
  | password (p : String)
  | oauth (d : ClientSecretData)
deriving DecidableEq, Repr

/-- `models/credential_model.py`: `CredentialModel` (the `created_at`
wall-clock field is omitted; it is set at construction and never written
afterwards). -/
structure CredentialModel where
  auth_type : AuthType
  email : String
  auth_data : AuthData
  status : CredentialStatus := CredentialStatus.PENDING
  error_message : Option String := none
deriving DecidableEq, Repr

/-- `models/result_model.py`: `ResultModel` (wall-clock fields omitted). -/
structure ResultModel where
  email : String
  auth_type : String
  status : AuthStatus
  inbox_count : Int := 0
  sent_count : Int := 0
  error_message : Option String := none
deriving DecidableEq, Repr

/-- Oracle for all network and external-library behaviour. -/
structure Env where
  /-- `imaplib.IMAP4_SSL(server, port)` -/
  connect : String → Nat → PyOutcome Conn
  /-- `imap_conn.login(email, auth_data)` -/
  login : Conn → String → AuthData → PyOutcome Unit
  /-- `imap_conn.select(folder, readonly=True)`: exception, or a pair of
  the status string and the textual payload `messages[0]`. -/
  select : Conn → String → Except String (String × String)
  /-- `imap_conn.logout()` -/
  logout : Conn → Except String Unit
  /-- `InstalledAppFlow.from_client_config(auth_data, SCOPES)` -/
  fromClientConfig : AuthData → Except String AuthFlow
  /-- `flow.run_local_server(...)`: the interactive authorization-code
  exchange. -/
  runLocalServer : AuthFlow → Except String Creds
  /-- People API profile lookup: the list of `emailAddresses` values, or an
  exception. -/
  peopleLookup : Creds → Except String (List String)
  /-- `credentials.expired` -/
  credsExpired : Creds → Bool
  /-- `credentials.refresh(Request())` -/
  refresh : Creds → Except String Creds
  /-- `credentials.token` -/
  token : Creds → String
  /-- `imap_conn.authenticate(XOAUTH2, ...)` with the given auth string. -/
  xoauth : Conn → String → Except String Unit
  /-- `base64.b64encode(s.encode()).decode()` -/
  b64encode : String → String

/-- Digit-string accumulator for `pyInt`. -/
def pyDigitsAux : List Char → Nat → Option Nat
  | [], acc => some acc
  | c :: cs, acc =>
    if c.isDigit then pyDigitsAux cs (acc * 10 + (c.toNat - '0'.toNat)) else none

/-- Python's `int(text)` on the select payload: parses an optionally signed
decimal, or raises `ValueError`. -/
def pyInt (s : String) : Except String Int :=
  match s.toList with
  | [] => Except.error ("invalid literal for int() with base 10: " ++ s)
  | '-' :: rest =>
    match rest, pyDigitsAux rest 0 with
    | _ :: _, some n => Except.ok (-(n : Int))
    | _, _ => Except.error ("invalid literal for int() with base 10: " ++ s)
  | cs =>
    match pyDigitsAux cs 0 with
    | some n => Except.ok (n : Int)
    | none => Except.error ("invalid literal for int() with base 10: " ++ s)

/-- `needle` is a leading segment of `hay`. -/
def charsLeadWith : List Char → List Char → Bool
  | [], _ => true
  | _ :: _, [] => false
  | a :: as, b :: bs => a == b && charsLeadWith as bs

/-- `needle` occurs as a contiguous segment of `hay`. -/
def charsContain : List Char → List Char → Bool
  | [], needle => needle.isEmpty
  | hay@(_ :: rest), needle => charsLeadWith needle hay || charsContain rest needle

/-- Python's `needle in hay` substring test. -/
def pyContains (hay needle : String) : Bool :=
  charsContain hay.toList needle.toList

/-- Python's `s.lower()`. -/
def pyLower (s : String) : String :=
  String.mk (s.toList.map Char.toLower)

/-- Python's `s.strip()`: drop leading and trailing whitespace. -/
def pyStrip (s : String) : String :=
  String.mk (((s.toList.dropWhile Char.isWhitespace).reverse.dropWhile Char.isWhitespace).reverse)

/-- Split a character list on a separator; the result is always
non-empty, matching Python's `str.split(sep)`. -/
def splitCharsOn (sep : Char) : List Char → List (List Char)
  | [] => [[]]
  | c :: cs =>
    match splitCharsOn sep cs with
    | [] => []
    | g :: gs => if c == sep then [] :: g :: gs else (c :: g) :: gs

/-- Python's `text.split(chr(10))`. -/
def pySplitNl (s : String) : List String :=
  (splitCharsOn '\n' s.toList).map String.mk

/-- Python's `s.replace(" ", "")`: remove every space. -/
def pyRemoveSpaces (s : String) : String :=
  String.mk (s.toList.filter (fun c => c ≠ ' '))

/-- Python's `s or d` for strings: `d` when `s` is empty. -/
def pyOr (s d : String) : String :=
  if s = "" then d else s

/-- Python's `s.isalnum()`: non-empty and all characters alphanumeric. -/
def pyIsAlnum (s : String) : Bool :=
  !s.toList.isEmpty && s.toList.all Char.isAlphanum

/-- `credential_model.py`: `CredentialModel.is_app_password`. -/
def CredentialModel.is_app_password (c : CredentialModel) : Bool :=
  match c.auth_type with
  | AuthType.APP_PASSWORD => true
  | _ => false

/-- `credential_model.py`: `CredentialModel.is_oauth2`. -/
def CredentialModel.is_oauth2 (c : CredentialModel) : Bool :=
  match c.auth_type with
  | AuthType.OAUTH2 => true
  | _ => false

/-- `credential_model.py`: `CredentialModel.from_app_password`. -/
def CredentialModel.from_app_password (email password : String) : CredentialModel :=
  { auth_type := AuthType.APP_PASSWORD, email := email,
    auth_data := AuthData.password password }

/-- `credential_model.py`: `CredentialModel.from_oauth2_data` (email filled
after the OAuth2 flow). -/
def CredentialModel.from_oauth2_data (client_secret_data : ClientSecretData) : CredentialModel :=
  { auth_type := AuthType.OAUTH2, email := "",
    auth_data := AuthData.oauth client_secret_data }

/-- `credential_model.py`: `CredentialModel.set_authenticated`; the email
is only overwritten when the argument is truthy (present and non-empty). -/
def CredentialModel.set_authenticated (c : CredentialModel) (email : Option String) : CredentialModel :=
  let c1 := { c with status := CredentialStatus.AUTHENTICATED }
  match email with
  | some e => if e ≠ "" then { c1 with email := e } else c1
  | none => c1

/-- `credential_model.py`: `CredentialModel.set_failed`. -/
def CredentialModel.set_failed (c : CredentialModel) (error_message : String) : CredentialModel :=
  { c with status := CredentialStatus.FAILED, error_message := some error_message }

/-- `result_model.py`: `ResultModel.create_success` (counts from the
probe, no error message). -/
def ResultModel.create_success (email auth_type : String) (inbox_count sent_count : Int) : ResultModel :=
  { email := email, auth_type := auth_type, status := AuthStatus.SUCCESS,
    inbox_count := inbox_count, sent_count := sent_count }

/-- `result_model.py`: `ResultModel.create_failure` (counts default to 0,
error message stored). -/
def ResultModel.create_failure (email auth_type error_message : String) : ResultModel :=
  { email := email, auth_type := auth_type, status := AuthStatus.FAILED,
    error_message := some error_message }

/-- `imap_connector.py`: `IMAPConnector.INBOX_FOLDER`. -/
def IMAPConnector.INBOX_FOLDER : String := "INBOX"

/-- `imap_connector.py`: `IMAPConnector.SENT_FOLDER`. -/
def IMAPConnector.SENT_FOLDER : String := "\"[Gmail]/Sent Mail\""

/-- `imap_connector.py`: `IMAPConnector.get_folder_count`.  The Python
variable may hold `None` (modelled by `Option Conn`); selecting on `None`
raises inside the `try` and is caught, yielding 0.  A non-`OK` status or a
payload that `int()` cannot parse also yields 0. -/
def IMAPConnector.get_folder_count (env : Env) (imap_conn : Option Conn) (folder : String) : Int :=
  match imap_conn with
  | none => 0
  | some conn =>
    match env.select conn folder with
    | Except.error _ => 0
    | Except.ok (status, messages0) =>
      if status = "OK" then
        match pyInt messages0 with
        | Except.ok n => n
        | Except.error _ => 0
      else 0

/-- The `inbox` / `sent` dictionary returned by
`IMAPConnector.get_all_folder_counts`. -/
structure FolderCounts where
  inbox : Int
  sent : Int
deriving DecidableEq, Repr

/-- `imap_connector.py`: `IMAPConnector.get_all_folder_counts`. -/
def IMAPConnector.get_all_folder_counts (env : Env) (imap_conn : Option Conn) : FolderCounts :=
  { inbox := IMAPConnector.get_folder_count env imap_conn IMAPConnector.INBOX_FOLDER,
    sent := IMAPConnector.get_folder_count env imap_conn IMAPConnector.SENT_FOLDER }

/-- `imap_connector.py`: `IMAPConnector.close_connection`: guarded by
`if imap_conn:`, attempts logout, swallows any error.  Returns the logout
events. -/
def IMAPConnector.close_connection (env : Env) (imap_conn : Option Conn) : List NetEvent :=
  match imap_conn with
  | none => []
  | some conn =>
    let _ := env.logout conn
    [NetEvent.logoutAttempt]

/-- `utils/email_counter.py`: `EmailCounter.count_emails_in_folder` — the
near-duplicate of `IMAPConnector.get_folder_count` (it adds only a debug
log line on the success path). -/
def EmailCounter.count_emails_in_folder (env : Env) (imap_conn : Option Conn) (folder : String) : Int :=
  match imap_conn with
  | none => 0
  | some conn =>
    match env.select conn folder with
    | Except.error _ => 0
    | Except.ok (status, messages0) =>
      if status = "OK" then
        match pyInt messages0 with
        | Except.ok count => count
        | Except.error _ => 0
      else 0

/-- Outcome of `AppPasswordAuthenticator.authenticate`: the source returns
the tuple `(True, imap_conn, "")` on success and `(False, None, msg)` on
failure; only these two shapes occur. -/
inductive AppAuthResult where
  | success (conn : Conn)
  | failure (error_msg : String)
deriving DecidableEq, Repr

/-- Outcome of `OAuth2Authenticator.authenticate`: `(True, creds, "")` on
success, `(False, None, msg)` on failure. -/
inductive OAuthAuthResult where
  | success (creds : Creds)
  | failure (error_msg : String)
deriving DecidableEq, Repr

/-- Outcome of `OAuth2Authenticator.create_imap_connection`. -/
inductive ImapConnResult where
  | success (conn : Conn)
  | failure (error_msg : String)
deriving DecidableEq, Repr

/-- `app_password_auth.py`: the `except imaplib.IMAP4.error` branch of
`authenticate`, which rewrites the protocol error message. -/
def AppPasswordAuthenticator.classifyImapError (error_msg : String) : String :=
  if pyContains error_msg "Invalid credentials" then
    "Invalid credentials. Check email and app password."
  else if pyContains (pyLower error_msg) "authentication failed" then
    "Authentication failed. Verify app password."
  else
    "IMAP authentication error: " ++ error_msg

/-- `app_password_auth.py`: default constructor arguments of
`AppPasswordAuthenticator`. -/
def AppPasswordAuthenticator.imap_server : String := "imap.gmail.com"

/-- `app_password_auth.py`: default IMAP port. -/
def AppPasswordAuthenticator.port : Nat := 993

/-- `app_password_auth.py`: `AppPasswordAuthenticator.authenticate`.
Creates the SSL connection, then logs in; `imaplib.IMAP4.error` from either
step is rewritten by `classifyImapError`, any other exception becomes a
`Connection error:` message.  No format pre-check is performed before the
connection attempt. -/
def AppPasswordAuthenticator.authenticate (env : Env) (credential : CredentialModel) :
    AppAuthResult × List NetEvent :=
  if ¬ credential.is_app_password then
    (AppAuthResult.failure "Invalid credential type for app password authentication", [])
  else
    let ev := [NetEvent.connectAttempt AppPasswordAuthenticator.imap_server AppPasswordAuthenticator.port]
    match env.connect AppPasswordAuthenticator.imap_server AppPasswordAuthenticator.port with
    | PyOutcome.imapError e => (AppAuthResult.failure (AppPasswordAuthenticator.classifyImapError e), ev)
    | PyOutcome.exc e => (AppAuthResult.failure ("Connection error: " ++ e), ev)
    | PyOutcome.ok imap_conn =>
      match env.login imap_conn credential.email credential.auth_data with
      | PyOutcome.imapError e => (AppAuthResult.failure (AppPasswordAuthenticator.classifyImapError e), ev)
      | PyOutcome.exc e => (AppAuthResult.failure ("Connection error: " ++ e), ev)
      | PyOutcome.ok _ => (AppAuthResult.success imap_conn, ev)

/-- `app_password_auth.py`: `AppPasswordAuthenticator.validate_app_password_format`.
Purely local shape check: non-empty, 16 characters once spaces are removed,
alphanumeric.  (Defined in the source but invoked from no code path.) -/
def AppPasswordAuthenticator.validate_app_password_format (password : String) : Bool :=
  if password = "" then false
  else
    let cleaned_password := pyRemoveSpaces password
    if cleaned_password.length ≠ 16 then false
    else if ¬ pyIsAlnum cleaned_password then false
    else true

/-- `oauth2_auth.py`: `OAuth2Authenticator._get_user_email`.  Any People
API failure, and an empty address list, fall back to the sentinel
`"unknown@gmail.com"`. -/
def OAuth2Authenticator.userEmailOf (env : Env) (credentials : Creds) : String :=
  match env.peopleLookup credentials with
  | Except.error _ => "unknown@gmail.com"
  | Except.ok email_addresses =>
    match email_addresses with
    | [] => "unknown@gmail.com"
    | v :: _ => v

/-- `oauth2_auth.py`: `OAuth2Authenticator.authenticate`.  Builds the flow
from the client config (no local field validation), runs the interactive
exchange, discovers the email, and mutates the credential via
`set_authenticated`; every exception is caught and prefixed with
`OAuth2 authentication failed:`. -/
def OAuth2Authenticator.authenticate (env : Env) (credential : CredentialModel) :
    (OAuthAuthResult × CredentialModel) × List NetEvent :=
  if ¬ credential.is_oauth2 then
    ((OAuthAuthResult.failure "Invalid credential type for OAuth2 authentication", credential), [])
  else
    match env.fromClientConfig credential.auth_data with
    | Except.error e =>
      ((OAuthAuthResult.failure ("OAuth2 authentication failed: " ++ e), credential), [])
    | Except.ok flow =>
      match env.runLocalServer flow with
      | Except.error e =>
        ((OAuthAuthResult.failure ("OAuth2 authentication failed: " ++ e), credential),
         [NetEvent.exchangeAttempt])
      | Except.ok creds =>
        let user_email := OAuth2Authenticator.userEmailOf env creds
        let credential2 := credential.set_authenticated (some user_email)
        ((OAuthAuthResult.success creds, credential2), [NetEvent.exchangeAttempt])

/-- `oauth2_auth.py`: `OAuth2Authenticator.validate_client_secret`:
requires the `installed` section and the four required fields.  (Defined in
the source but invoked from no code path.) -/
def OAuth2Authenticator.validate_client_secret (client_secret_data : ClientSecretData) : Bool :=
  if ¬ client_secret_data.hasInstalled then false
  else
    ["client_id", "client_secret", "auth_uri", "token_uri"].all
      (fun field => client_secret_data.installedKeys.contains field)

/-- `oauth2_auth.py`: `OAuth2Authenticator.IMAP_SERVER`. -/
def OAuth2Authenticator.IMAP_SERVER : String := "imap.gmail.com"

/-- `oauth2_auth.py`: `OAuth2Authenticator.PORT`. -/
def OAuth2Authenticator.PORT : Nat := 993

/-- `oauth2_auth.py`: `OAuth2Authenticator.create_imap_connection`:
refreshes expired credentials, builds the XOAUTH2 auth string, opens the
SSL connection and authenticates; any exception is caught and prefixed
with `IMAP OAuth2 connection failed:`. -/
def OAuth2Authenticator.create_imap_connection (env : Env) (email : String) (credentials : Creds) :
    ImapConnResult × List NetEvent :=
  match (if env.credsExpired credentials then env.refresh credentials else Except.ok credentials) with
  | Except.error e => (ImapConnResult.failure ("IMAP OAuth2 connection failed: " ++ e), [])
  | Except.ok creds2 =>
    let auth_string := "user=" ++ email ++ "\x01auth=Bearer " ++ env.token creds2 ++ "\x01\x01"
    let auth_string_b64 := env.b64encode auth_string
    let ev := [NetEvent.connectAttempt OAuth2Authenticator.IMAP_SERVER OAuth2Authenticator.PORT]
    match env.connect OAuth2Authenticator.IMAP_SERVER OAuth2Authenticator.PORT with
    | PyOutcome.imapError e => (ImapConnResult.failure ("IMAP OAuth2 connection failed: " ++ e), ev)
    | PyOutcome.exc e => (ImapConnResult.failure ("IMAP OAuth2 connection failed: " ++ e), ev)
    | PyOutcome.ok imap_conn =>
      match env.xoauth imap_conn auth_string_b64 with
      | Except.error e => (ImapConnResult.failure ("IMAP OAuth2 connection failed: " ++ e), ev)
      | Except.ok _ => (ImapConnResult.success imap_conn, ev)

/-- `auth_manager.py`: `AuthManager._process_app_password`.  On auth
failure a failure result; on success, count both folders, close the
connection (errors swallowed), and build a success result.  The credential
is returned unchanged: this path never mutates it. -/
def AuthManager.processAppPassword (env : Env) (credential : CredentialModel) :
    (ResultModel × CredentialModel) × List NetEvent :=
  match AppPasswordAuthenticator.authenticate env credential with
  | (AppAuthResult.failure error_msg, ev) =>
    ((ResultModel.create_failure credential.email "app_password" error_msg, credential), ev)
  | (AppAuthResult.success imap_conn, ev) =>
    let counts := IMAPConnector.get_all_folder_counts env (some imap_conn)
    let ev2 := IMAPConnector.close_connection env (some imap_conn)
    ((ResultModel.create_success credential.email "app_password" counts.inbox counts.sent,
      credential), ev ++ ev2)

/-- `auth_manager.py`: `AuthManager._process_oauth2`.  The source reads
`credential.email` after `authenticate` has mutated the credential object
in place, so the updated credential is used for the email. -/
def AuthManager.processOauth2 (env : Env) (credential : CredentialModel) :
    (ResultModel × CredentialModel) × List NetEvent :=
  match OAuth2Authenticator.authenticate env credential with
  | ((OAuthAuthResult.failure error_msg, credential2), ev) =>
    ((ResultModel.create_failure (pyOr credential2.email "unknown") "oauth2" error_msg,
      credential2), ev)
  | ((OAuthAuthResult.success creds, credential2), ev) =>
    match OAuth2Authenticator.create_imap_connection env credential2.email creds with
    | (ImapConnResult.failure imap_error, ev2) =>
      ((ResultModel.create_failure credential2.email "oauth2" imap_error, credential2), ev ++ ev2)
    | (ImapConnResult.success imap_conn, ev2) =>
      let counts := IMAPConnector.get_all_folder_counts env (some imap_conn)
      let ev3 := IMAPConnector.close_connection env (some imap_conn)
      ((ResultModel.create_success credential2.email "oauth2" counts.inbox counts.sent,
        credential2), ev ++ ev2 ++ ev3)

/-- `auth_manager.py`: `AuthManager.authenticate_and_count`.  Dispatch on
the credential kind; the source wraps the dispatch in a catch-all
`except Exception` returning `Authentication error: str(e)` — as embedded,
every callee already catches its own exceptions and the dispatch body is
total, so that handler has nothing to catch. -/
def AuthManager.authenticate_and_count (env : Env) (credential : CredentialModel) :
    (ResultModel × CredentialModel) × List NetEvent :=
  if credential.is_app_password then
    AuthManager.processAppPassword env credential
  else if credential.is_oauth2 then
    AuthManager.processOauth2 env credential
  else
    ((ResultModel.create_failure credential.email "unknown" "Unsupported authentication type",
      credential), [])

/-- `ui/gradio_interface.py` lines 124-137: the batch loop of
`GradioInterface.process_credentials`: for each parsed credential in input
order, run `authenticate_and_count` and append the result. -/
def GradioInterface.process_credentials (env : Env) (all_credentials : List CredentialModel) :
    List ResultModel :=
  all_credentials.map (fun credential => (AuthManager.authenticate_and_count env credential).1.1)

/-- Python's `line.split(":", 1)` when `":" in line`: the text before the
first colon and the text after it. -/
def pySplitOnceColon (line : String) : String × String :=
  let cs := line.toList
  (String.mk (cs.takeWhile (fun c => c ≠ ':')),
   String.mk ((cs.dropWhile (fun c => c ≠ ':')).drop 1))

/-- `utils/credential_parser.py`: one iteration of the
`parse_app_password_text` loop; a `ValueError` is an `Except.error`.
(The `len(parts) != 2` branch of the source is unreachable: a one-argument
split on a line containing a colon always yields two parts.) -/
def CredentialParser.parseAppPasswordLine (line_num : Nat) (line : String) :
    Except String CredentialModel :=
  if ¬ (line.toList.contains ':') then
    Except.error ("Line " ++ toString line_num ++ ": Invalid format. Expected \x27email:password\x27")
  else
    let email := pyStrip (pySplitOnceColon line).1
    let password := pyStrip (pySplitOnceColon line).2
    if email = "" ∨ password = "" then
      Except.error ("Line " ++ toString line_num ++ ": Empty email or password")
    else if ¬ (email.toList.contains '@') then
      Except.error ("Line " ++ toString line_num ++ ": Invalid email format")
    else
      Except.ok (CredentialModel.from_app_password email password)

/-- `utils/credential_parser.py`: the enumerated loop of
`parse_app_password_text`; the first failing line aborts the whole parse,
as the raised `ValueError` discards the accumulated list. -/
def CredentialParser.parseLinesAux : Nat → List String → Except String (List CredentialModel)
  | _, [] => Except.ok []
  | line_num, line :: rest =>
    match CredentialParser.parseAppPasswordLine line_num line with
    | Except.error e => Except.error e
    | Except.ok c =>
      match CredentialParser.parseLinesAux (line_num + 1) rest with
      | Except.error e => Except.error e
      | Except.ok cs => Except.ok (c :: cs)

/-- `utils/credential_parser.py`: `CredentialParser.parse_app_password_text`:
strip the text, split into lines, strip each line, drop empty lines, then
parse each line with 1-based numbering. -/
def CredentialParser.parse_app_password_text (text : String) :
    Except String (List CredentialModel) :=
  let lines := ((pySplitNl (pyStrip text)).map pyStrip).filter (fun line => line ≠ "")
  CredentialParser.parseLinesAux 1 lines

/-- `utils/credential_parser.py`: `CredentialParser.parse_oauth2_json` on
already-decoded JSON: requires the `installed` section and each of the four
required fields, raising `ValueError` at the first one missing. -/
def CredentialParser.parse_oauth2_json (client_secret : ClientSecretData) :
    Except String CredentialModel :=
  if ¬ client_secret.hasInstalled then
    Except.error "Missing \x27installed\x27 section in client secret JSON"
  else
    match ["client_id", "client_secret", "auth_uri", "token_uri"].find?
        (fun field => ! client_secret.installedKeys.contains field) with
    | some field => Except.error ("Missing required field: " ++ field)
    | none => Except.ok (CredentialModel.from_oauth2_data client_secret)

/-- An uploaded OAuth2 file: its name, and the result of reading and
JSON-decoding its content (an `Except.error` models a read or decode
exception). -/
structure UploadFile where
  name : String
  content : Except String ClientSecretData
deriving Repr

/-- `utils/credential_parser.py`: `CredentialParser.parse_oauth2_files`:
each file that reads and parses produces its credential; for any failing
file a placeholder `CredentialModel` with EMPTY client-secret data is
created, marked failed, and appended to the returned list all the same. -/
def CredentialParser.parse_oauth2_files (file_objects : List UploadFile) : List CredentialModel :=
  file_objects.map (fun file_obj =>
    match file_obj.content with
    | Except.error e =>
      (CredentialModel.from_oauth2_data { hasInstalled := false, installedKeys := [] }).set_failed
        ("File parsing error: " ++ e)
    | Except.ok client_secret =>
      match CredentialParser.parse_oauth2_json client_secret with
      | Except.ok credential => credential
      | Except.error e =>
        (CredentialModel.from_oauth2_data { hasInstalled := false, installedKeys := [] }).set_failed
          ("File parsing error: " ++ e))

/-- `utils/credential_parser.py`: `CredentialParser.validate_oauth2_client_secret`
(the parser-side duplicate of `OAuth2Authenticator.validate_client_secret`). -/
def CredentialParser.validate_oauth2_client_secret (client_secret : ClientSecretData) : Bool :=
  if ¬ client_secret.hasInstalled then false
  else
    ["client_id", "client_secret", "auth_uri", "token_uri"].all
      (fun field => client_secret.installedKeys.contains field)

/-- The structural well-formedness predicate of spec section 6: non-empty
address containing the domain separator plus non-empty secret for the
SECRET kind; all required issuer fields present for the TOKEN kind. -/
def structurallyWellFormed (c : CredentialModel) : Bool :=
  match c.auth_type, c.auth_data with
  | AuthType.APP_PASSWORD, AuthData.password p =>
    c.email != "" && c.email.toList.contains '@' && p != ""
  | AuthType.OAUTH2, AuthData.oauth d =>
    CredentialParser.validate_oauth2_client_secret d
  | _, _ => false

/-- Number of connection attempts in a trace. -/
def connectAttemptCount (evs : List NetEvent) : Nat :=
  (evs.filter (fun e => match e with
    | NetEvent.connectAttempt _ _ => true
    | _ => false)).length

/-- Number of authorization-exchange attempts in a trace. -/
def exchangeAttemptCount (evs : List NetEvent) : Nat :=
  (evs.filter (fun e => match e with
    | NetEvent.exchangeAttempt => true
    | _ => false)).length

/-- A neutral concrete environment in which every network operation
succeeds; specific scenarios override individual fields. -/
def baseEnv : Env where
  connect := fun _ _ => PyOutcome.ok 1
  login := fun _ _ _ => PyOutcome.ok ()
  select := fun _ _ => Except.ok ("OK", "0")
  logout := fun _ => Except.ok ()
  fromClientConfig := fun _ => Except.ok 0
  runLocalServer := fun _ => Except.ok 0
  peopleLookup := fun _ => Except.ok ["user@gmail.com"]
  credsExpired := fun _ => false
  refresh := fun c => Except.ok c
  token := fun _ => "tok"
  xoauth := fun _ _ => Except.ok ()
  b64encode := fun s => s

/-- A SECRET-kind credential used by concrete scenarios. -/
def credApp : CredentialModel :=
  { auth_type := AuthType.APP_PASSWORD, email := "victim@gmail.com",
    auth_data := AuthData.password "abcdabcdabcdabcd" }

/-- C9: the two duplicated counting variants compute the same function:
`IMAPConnector.get_folder_count` and `EmailCounter.count_emails_in_folder`
return equal integers on identical protocol responses (same environment,
session and folder). -/
theorem C9_duplicated_counting_variants_agree (env : Env) (imap_conn : Option Conn)
    (folder : String) :
    IMAPConnector.get_folder_count env imap_conn folder =
      EmailCounter.count_emails_in_folder env imap_conn folder := rfl

/-- C7: the folder-count operation is total (never raises: it is a function
into `Int`); a select exception, a non-OK status, an unparsable payload, or
a missing session each yield 0, and an OK select yields the parsed count. -/
theorem C7_get_folder_count_contract (env : Env) (conn : Conn) (folder : String) :
    (∀ m, env.select conn folder = Except.error m →
      IMAPConnector.get_folder_count env (some conn) folder = 0) ∧
    (∀ status payload, env.select conn folder = Except.ok (status, payload) → status ≠ "OK" →
      IMAPConnector.get_folder_count env (some conn) folder = 0) ∧
    (∀ payload n, env.select conn folder = Except.ok ("OK", payload) →
      pyInt payload = Except.ok n →
      IMAPConnector.get_folder_count env (some conn) folder = n) ∧
    (∀ payload m, env.select conn folder = Except.ok ("OK", payload) →
      pyInt payload = Except.error m →
      IMAPConnector.get_folder_count env (some conn) folder = 0) ∧
    IMAPConnector.get_folder_count env none folder = 0 := by
  refine ⟨?_, ?_, ?_, ?_, rfl⟩
  · intro m h; simp [IMAPConnector.get_folder_count, h]
  · intro status payload h hne; simp [IMAPConnector.get_folder_count, h, hne]
  · intro payload n h hp; simp [IMAPConnector.get_folder_count, h, hp]
  · intro payload m h hp; simp [IMAPConnector.get_folder_count, h, hp]

/-- Environment whose folder-select reports a count of 1250. -/
def envC7 : Env := { baseEnv with select := fun _ _ => Except.ok ("OK", "1250") }

/-- Witness for C7 at a concrete session: an OK select with payload `1250`
yields the parsed count 1250. -/
theorem C7_witness : IMAPConnector.get_folder_count envC7 (some 1) "INBOX" = 1250 :=
  (C7_get_folder_count_contract envC7 1 "INBOX").2.2.1 "1250" 1250 rfl (by decide)

/-- C1: the batch driver produces exactly one outcome record per credential
record, in input order: the output length equals the input length, and the
i-th outcome is the result of validating the i-th input, so no record is
skipped or short-circuited by an earlier failure. -/
theorem C1_batch_preserves_cardinality_and_order (env : Env)
    (all_credentials : List CredentialModel) :
    (GradioInterface.process_credentials env all_credentials).length =
      all_credentials.length ∧
    ∀ (i : Nat) (h : i < all_credentials.length),
      (GradioInterface.process_credentials env all_credentials)[i]? =
        some ((AuthManager.authenticate_and_count env all_credentials[i]).1.1) := by
  constructor
  · simp [GradioInterface.process_credentials]
  · intro i h
    simp [GradioInterface.process_credentials, List.getElem?_map, List.getElem?_eq_getElem h]

/-- Witness for C1 on a concrete one-element batch. -/
theorem C1_witness :
    (GradioInterface.process_credentials baseEnv [credApp]).length = 1 ∧
    (GradioInterface.process_credentials baseEnv [credApp])[0]? =
      some ((AuthManager.authenticate_and_count baseEnv credApp).1.1) :=
  ⟨(C1_batch_preserves_cardinality_and_order baseEnv [credApp]).1,
   (C1_batch_preserves_cardinality_and_order baseEnv [credApp]).2 0 (by decide)⟩

/-- C10: for an APP_PASSWORD credential, `authenticate_and_count` returns
the credential with every field unchanged (in particular a PENDING status
stays PENDING), success or failure; and any credential mutation can only
happen on the OAuth2 path. -/
theorem C10_app_password_path_is_frame_preserving (env : Env) (credential : CredentialModel) :
    (credential.is_app_password = true →
      (AuthManager.authenticate_and_count env credential).1.2 = credential) ∧
    ((AuthManager.authenticate_and_count env credential).1.2 ≠ credential →
      credential.is_oauth2 = true) := by
  have frame : credential.is_app_password = true →
      (AuthManager.authenticate_and_count env credential).1.2 = credential := by
    intro happ
    unfold AuthManager.authenticate_and_count
    simp only [happ, if_true]
    unfold AuthManager.processAppPassword
    rcases hres : AppPasswordAuthenticator.authenticate env credential with ⟨res, ev⟩
    cases res <;> simp [hres]
  refine ⟨frame, ?_⟩
  intro hne
  cases ht : credential.auth_type
  case APP_PASSWORD =>
    exact absurd (frame (by simp [CredentialModel.is_app_password, ht])) hne
  case OAUTH2 =>
    simp [CredentialModel.is_oauth2, ht]

/-- Witness for C10: a concrete APP_PASSWORD credential comes back
unchanged from a full batch-item validation. -/
theorem C10_witness :
    (AuthManager.authenticate_and_count baseEnv credApp).1.2 = credApp :=
  (C10_app_password_path_is_frame_preserving baseEnv credApp).1 (by decide)

/-- A string with a non-empty left part is non-empty. -/
theorem appendNeEmptyLeft (a b : String) (h : a ≠ "") : a ++ b ≠ "" := by
  intro hc
  have hd := congrArg String.data hc
  simp only [String.data_append] at hd
  have h1 : a.data = [] := (List.append_eq_nil.mp hd).1
  exact h (String.ext h1)

/-- Every rewritten IMAP authentication error message is non-empty. -/
theorem classifyImapErrorNeEmpty (e : String) :
    AppPasswordAuthenticator.classifyImapError e ≠ "" := by
  unfold AppPasswordAuthenticator.classifyImapError
  split
  · decide
  · split
    · decide
    · exact appendNeEmptyLeft "IMAP authentication error: " e (by decide)

/-- Every failure message of the app-password authenticator is non-empty. -/
theorem appAuthFailureNeEmpty (env : Env) (c : CredentialModel) (m : String)
    (ev : List NetEvent)
    (h : AppPasswordAuthenticator.authenticate env c = (AppAuthResult.failure m, ev)) :
    m ≠ "" := by
  unfold AppPasswordAuthenticator.authenticate at h
  split at h
  · simp only [Prod.mk.injEq, AppAuthResult.failure.injEq] at h
    obtain ⟨h1, -⟩ := h
    subst h1
    decide
  · rcases hc : env.connect AppPasswordAuthenticator.imap_server AppPasswordAuthenticator.port with
      conn | e | e
    · rw [hc] at h
      dsimp only at h
      rcases hl : env.login conn c.email c.auth_data with u | e | e
      · rw [hl] at h
        simp at h
      · rw [hl] at h
        simp only [Prod.mk.injEq, AppAuthResult.failure.injEq] at h
        obtain ⟨h1, -⟩ := h
        subst h1
        exact classifyImapErrorNeEmpty e
      · rw [hl] at h
        simp only [Prod.mk.injEq, AppAuthResult.failure.injEq] at h
        obtain ⟨h1, -⟩ := h
        subst h1
        exact appendNeEmptyLeft "Connection error: " e (by decide)
    · rw [hc] at h
      simp only [Prod.mk.injEq, AppAuthResult.failure.injEq] at h
      obtain ⟨h1, -⟩ := h
      subst h1
      exact classifyImapErrorNeEmpty e
    · rw [hc] at h
      simp only [Prod.mk.injEq, AppAuthResult.failure.injEq] at h
      obtain ⟨h1, -⟩ := h
      subst h1
      exact appendNeEmptyLeft "Connection error: " e (by decide)

/-- Every failure message of the OAuth2 authenticator is non-empty. -/
theorem oauthAuthFailureNeEmpty (env : Env) (c : CredentialModel) (m : String)
    (c2 : CredentialModel) (ev : List NetEvent)
    (h : OAuth2Authenticator.authenticate env c = ((OAuthAuthResult.failure m, c2), ev)) :
    m ≠ "" := by
  unfold OAuth2Authenticator.authenticate at h
  split at h
  · simp only [Prod.mk.injEq, OAuthAuthResult.failure.injEq] at h
    obtain ⟨⟨h1, -⟩, -⟩ := h
    subst h1
    decide
  · rcases hc : env.fromClientConfig c.auth_data with e | flow
    · rw [hc] at h
      simp only [Prod.mk.injEq, OAuthAuthResult.failure.injEq] at h
      obtain ⟨⟨h1, -⟩, -⟩ := h
      subst h1
      exact appendNeEmptyLeft "OAuth2 authentication failed: " e (by decide)
    · rw [hc] at h
      dsimp only at h
      rcases hr : env.runLocalServer flow with e | creds
      · rw [hr] at h
        simp only [Prod.mk.injEq, OAuthAuthResult.failure.injEq] at h
        obtain ⟨⟨h1, -⟩, -⟩ := h
        subst h1
        exact appendNeEmptyLeft "OAuth2 authentication failed: " e (by decide)
      · rw [hr] at h
        simp at h

/-- Every failure message of the OAuth2 IMAP session opener is non-empty. -/
theorem imapConnFailureNeEmpty (env : Env) (email : String) (credentials : Creds)
    (m : String) (ev : List NetEvent)
    (h : OAuth2Authenticator.create_imap_connection env email credentials =
      (ImapConnResult.failure m, ev)) :
    m ≠ "" := by
  unfold OAuth2Authenticator.create_imap_connection at h
  rcases hrf : (if env.credsExpired credentials then env.refresh credentials
      else Except.ok credentials) with e | creds2
  · rw [hrf] at h
    simp only [Prod.mk.injEq, ImapConnResult.failure.injEq] at h
    obtain ⟨h1, -⟩ := h
    subst h1
    exact appendNeEmptyLeft "IMAP OAuth2 connection failed: " e (by decide)
  · rw [hrf] at h
    dsimp only at h
    rcases hc : env.connect OAuth2Authenticator.IMAP_SERVER OAuth2Authenticator.PORT with
      conn | e | e
    · rw [hc] at h
      dsimp only at h
      rcases hx : env.xoauth conn (env.b64encode
          ("user=" ++ email ++ "\x01auth=Bearer " ++ env.token creds2 ++ "\x01\x01")) with e | u
      · rw [hx] at h
        simp only [Prod.mk.injEq, ImapConnResult.failure.injEq] at h
        obtain ⟨h1, -⟩ := h
        subst h1
        exact appendNeEmptyLeft "IMAP OAuth2 connection failed: " e (by decide)
      · rw [hx] at h
        simp at h
    · rw [hc] at h
      simp only [Prod.mk.injEq, ImapConnResult.failure.injEq] at h
      obtain ⟨h1, -⟩ := h
      subst h1
      exact appendNeEmptyLeft "IMAP OAuth2 connection failed: " e (by decide)
    · rw [hc] at h
      simp only [Prod.mk.injEq, ImapConnResult.failure.injEq] at h
      obtain ⟨h1, -⟩ := h
      subst h1
      exact appendNeEmptyLeft "IMAP OAuth2 connection failed: " e (by decide)

/-- The outcome-record invariant of spec section 3: the error detail is
absent exactly on success; a failure carries a non-empty error detail and
zero counts; the status is never left pending. -/
def resultInvariant (r : ResultModel) : Prop :=
  (r.error_message = none ↔ r.status = AuthStatus.SUCCESS) ∧
  (r.status = AuthStatus.FAILED →
    (∃ m, r.error_message = some m ∧ m ≠ "") ∧ r.inbox_count = 0 ∧ r.sent_count = 0) ∧
  (r.status = AuthStatus.SUCCESS ∨ r.status = AuthStatus.FAILED)

/-- Success results satisfy the invariant. -/
theorem resultInvariantCreateSuccess (e t : String) (i s : Int) :
    resultInvariant (ResultModel.create_success e t i s) := by
  refine ⟨by simp [ResultModel.create_success, resultInvariant], ?_, Or.inl rfl⟩
  intro h
  simp [ResultModel.create_success] at h

/-- Failure results with a non-empty message satisfy the invariant. -/
theorem resultInvariantCreateFailure (e t m : String) (hm : m ≠ "") :
    resultInvariant (ResultModel.create_failure e t m) := by
  refine ⟨by simp [ResultModel.create_failure], ?_, Or.inr rfl⟩
  intro _
  exact ⟨⟨m, rfl, hm⟩, rfl, rfl⟩

/-- The app-password path always yields an invariant-satisfying outcome. -/
theorem processAppPasswordInvariant (env : Env) (c : CredentialModel) :
    resultInvariant (AuthManager.processAppPassword env c).1.1 := by
  unfold AuthManager.processAppPassword
  rcases hres : AppPasswordAuthenticator.authenticate env c with ⟨res, ev⟩
  cases res with
  | failure m =>
    dsimp only
    exact resultInvariantCreateFailure _ _ m (appAuthFailureNeEmpty env c m ev hres)
  | success conn =>
    dsimp only
    exact resultInvariantCreateSuccess _ _ _ _

/-- The OAuth2 path always yields an invariant-satisfying outcome. -/
theorem processOauth2Invariant (env : Env) (c : CredentialModel) :
    resultInvariant (AuthManager.processOauth2 env c).1.1 := by
  unfold AuthManager.processOauth2
  rcases hres : OAuth2Authenticator.authenticate env c with ⟨⟨res, c2⟩, ev⟩
  cases res with
  | failure m =>
    dsimp only
    exact resultInvariantCreateFailure _ _ m (oauthAuthFailureNeEmpty env c m c2 ev hres)
  | success creds =>
    dsimp only
    rcases hconn : OAuth2Authenticator.create_imap_connection env c2.email creds with ⟨cres, ev2⟩
    cases cres with
    | failure m2 =>
      dsimp only
      exact resultInvariantCreateFailure _ _ m2
        (imapConnFailureNeEmpty env c2.email creds m2 ev2 hconn)
    | success conn =>
      dsimp only
      exact resultInvariantCreateSuccess _ _ _ _

/-- C3: every outcome record produced by the orchestrator satisfies the
success/error dichotomy: the error detail is absent exactly when the status
is SUCCESS; every FAILURE outcome carries a non-empty error detail and has
`inbox_count = sent_count = 0`; and the status is never left PENDING. -/
theorem C3_orchestrator_outcome_invariant (env : Env) (credential : CredentialModel) :
    resultInvariant (AuthManager.authenticate_and_count env credential).1.1 := by
  unfold AuthManager.authenticate_and_count
  split
  · exact processAppPasswordInvariant env credential
  · split
    · exact processOauth2Invariant env credential
    · exact resultInvariantCreateFailure _ _ _ (by decide)

/-- Environment whose IMAP login is rejected by the protocol. -/
def envC3 : Env := { baseEnv with login := fun _ _ _ => PyOutcome.imapError "LOGIN rejected" }

/-- Witness for C3 at a concrete rejected login: the FAILURE branch of the
invariant yields zero counts and a non-empty error detail. -/
theorem C3_witness :
    ((AuthManager.authenticate_and_count envC3 credApp).1.1.inbox_count = 0) ∧
    ((AuthManager.authenticate_and_count envC3 credApp).1.1.sent_count = 0) ∧
    (∃ m, (AuthManager.authenticate_and_count envC3 credApp).1.1.error_message = some m ∧
      m ≠ "") := by
  have h := (C3_orchestrator_outcome_invariant envC3 credApp).2.1 (by decide)
  exact ⟨h.2.1, h.2.2, h.1⟩

/-- Environment in which connecting and logging in succeed but every
folder select raises an exception. -/
def envC2 : Env := { baseEnv with select := fun _ _ => Except.error "probe exploded" }

/-- C2 counterexample: an exception raised during folder probing is NOT
converted into a FAILURE outcome whose message carries the exception text —
the outcome is SUCCESS with no error detail and zero counts, because the
probe layer swallows the exception before the orchestrator sees it. -/
theorem C2_counterexample :
    (AuthManager.authenticate_and_count envC2 credApp).1.1.status = AuthStatus.SUCCESS ∧
    (AuthManager.authenticate_and_count envC2 credApp).1.1.error_message = none ∧
    (AuthManager.authenticate_and_count envC2 credApp).1.1.inbox_count = 0 ∧
    (AuthManager.authenticate_and_count envC2 credApp).1.1.sent_count = 0 := by
  refine ⟨?_, ?_, ?_, ?_⟩ <;> decide

/-- C2 (amended): the orchestrator never propagates an exception — it is a
total function into outcome records; an exception raised while opening the
connection is caught and converted into a FAILURE outcome whose message
carries the exception text behind the `Connection error:` classification;
but an exception raised during probing or close is swallowed below the
orchestrator, leaving a SUCCESS outcome with no error detail. -/
theorem C2_amended_exception_handling (env : Env) (credential : CredentialModel)
    (conn : Conn) (ev : List NetEvent) (m : String) :
    (credential.is_app_password = true →
      AppPasswordAuthenticator.authenticate env credential = (AppAuthResult.success conn, ev) →
      (AuthManager.authenticate_and_count env credential).1.1.status = AuthStatus.SUCCESS ∧
      (AuthManager.authenticate_and_count env credential).1.1.error_message = none) ∧
    (credential.is_app_password = true →
      env.connect "imap.gmail.com" 993 = PyOutcome.exc m →
      (AuthManager.authenticate_and_count env credential).1.1 =
        ResultModel.create_failure credential.email "app_password"
          ("Connection error: " ++ m)) := by
  constructor
  · intro happ hsucc
    unfold AuthManager.authenticate_and_count
    simp only [happ, if_true]
    unfold AuthManager.processAppPassword
    rw [hsucc]
    dsimp only
    constructor <;> rfl
  · intro happ hexc
    unfold AuthManager.authenticate_and_count
    simp only [happ, if_true]
    unfold AuthManager.processAppPassword
    unfold AppPasswordAuthenticator.authenticate
    simp only [happ, not_true_eq_false, if_false]
    rw [show AppPasswordAuthenticator.imap_server = "imap.gmail.com" from rfl,
      show AppPasswordAuthenticator.port = 993 from rfl, hexc]

/-- Environment whose connection constructor raises `socket timeout`. -/
def envC2b : Env := { baseEnv with connect := fun _ _ => PyOutcome.exc "socket timeout" }

/-- Witness for the amended C2 at concrete environments: a probe exception
still yields SUCCESS, and a connect exception yields the classified FAILURE
carrying the exception text. -/
theorem C2_amended_witness :
    ((AuthManager.authenticate_and_count envC2 credApp).1.1.status = AuthStatus.SUCCESS ∧
      (AuthManager.authenticate_and_count envC2 credApp).1.1.error_message = none) ∧
    (AuthManager.authenticate_and_count envC2b credApp).1.1 =
      ResultModel.create_failure "victim@gmail.com" "app_password"
        ("Connection error: " ++ "socket timeout") :=
  ⟨(C2_amended_exception_handling envC2 credApp 1 [NetEvent.connectAttempt "imap.gmail.com" 993]
      "unused").1 (by decide) (by decide),
   (C2_amended_exception_handling envC2b credApp 1 [] "socket timeout").2 (by decide) rfl⟩

/-- A SECRET-kind credential whose secret has an invalid format (length 5
after removing spaces). -/
def credC4 : CredentialModel :=
  { auth_type := AuthType.APP_PASSWORD, email := "victim@gmail.com",
    auth_data := AuthData.password "short" }

/-- C4 counterexample: for a credential whose secret fails the format
check, validating still makes a connection attempt — the format pre-check
is not invoked anywhere on the validation path, so nothing is rejected
locally before the network round trip. -/
theorem C4_counterexample :
    AppPasswordAuthenticator.validate_app_password_format "short" = false ∧
    connectAttemptCount (AuthManager.authenticate_and_count baseEnv credC4).2 = 1 ∧
    (AuthManager.authenticate_and_count baseEnv credC4).1.1.status = AuthStatus.SUCCESS := by
  refine ⟨?_, ?_, ?_⟩ <;> decide

/-- C4 (amended): `validate_app_password_format` does correctly reject
syntactically invalid secrets (empty, wrong cleaned length, or
non-alphanumeric) without any network action, but it is dead code on the
validation path: `authenticate` makes exactly one connection attempt for
every SECRET-kind credential, regardless of the secret's format. -/
theorem C4_amended_format_check_not_wired (password : String) (env : Env)
    (credential : CredentialModel) :
    (AppPasswordAuthenticator.validate_app_password_format "" = false) ∧
    (password ≠ "" →
      ((pyRemoveSpaces password).length ≠ 16 ∨ pyIsAlnum (pyRemoveSpaces password) = false) →
      AppPasswordAuthenticator.validate_app_password_format password = false) ∧
    (credential.is_app_password = true →
      connectAttemptCount (AppPasswordAuthenticator.authenticate env credential).2 = 1) := by
  refine ⟨by decide, ?_, ?_⟩
  · intro hne hbad
    unfold AppPasswordAuthenticator.validate_app_password_format
    rcases hbad with hlen | haln
    · simp [hne, hlen]
    · by_cases hlen : (pyRemoveSpaces password).length = 16
      · simp [hne, hlen, haln]
      · simp [hne, hlen]
  · intro happ
    unfold AppPasswordAuthenticator.authenticate
    simp only [happ, not_true_eq_false, if_false]
    rcases hc : env.connect AppPasswordAuthenticator.imap_server
        AppPasswordAuthenticator.port with conn | e | e
    · dsimp only
      rcases hl : env.login conn credential.email credential.auth_data with u | e | e <;>
        simp [hl, connectAttemptCount]
    · simp [connectAttemptCount]
    · simp [connectAttemptCount]

/-- Witness for the amended C4: a concrete invalid secret is rejected by
the format check, while a concrete SECRET credential still produces exactly
one connection attempt. -/
theorem C4_witness :
    AppPasswordAuthenticator.validate_app_password_format "abc" = false ∧
    connectAttemptCount (AppPasswordAuthenticator.authenticate baseEnv credApp).2 = 1 :=
  ⟨(C4_amended_format_check_not_wired "abc" baseEnv credApp).2.1 (by decide) (Or.inl (by decide)),
   (C4_amended_format_check_not_wired "abc" baseEnv credApp).2.2 (by decide)⟩

/-- An issuer configuration missing the `client_secret` required field. -/
def cfgC5 : ClientSecretData :=
  { hasInstalled := true, installedKeys := ["client_id", "auth_uri", "token_uri"] }

/-- An issuer configuration with all four required fields. -/
def cfgFull : ClientSecretData :=
  { hasInstalled := true,
    installedKeys := ["client_id", "client_secret", "auth_uri", "token_uri"] }

/-- A TOKEN-kind credential whose issuer config is missing `client_secret`. -/
def credC5 : CredentialModel :=
  { auth_type := AuthType.OAUTH2, email := "", auth_data := AuthData.oauth cfgC5 }

/-- Environment whose flow construction rejects the config (the message is
the one the client library uses when the `installed` section is absent). -/
def envC5b : Env :=
  { baseEnv with fromClientConfig := fun _ =>
      Except.error "Client secrets must be for a web or installed app." }

/-- C5 counterexample: for a credential missing `client_secret`,
`authenticate` performs no fail-fast field validation.  Under a
flow-construction collaborator that (like the real client library, which
requires only `auth_uri`, `token_uri` and `client_id`) accepts the config,
the authorization exchange IS invoked and validation even succeeds; and
under a collaborator that rejects it, the failure is classified by the
generic `OAuth2 authentication failed:` prefix, never as a
`MalformedIssuerConfig` condition. -/
theorem C5_counterexample :
    OAuth2Authenticator.validate_client_secret cfgC5 = false ∧
    exchangeAttemptCount (AuthManager.authenticate_and_count baseEnv credC5).2 = 1 ∧
    (AuthManager.authenticate_and_count baseEnv credC5).1.1.status = AuthStatus.SUCCESS ∧
    (AuthManager.authenticate_and_count envC5b credC5).1.1.error_message =
      some "OAuth2 authentication failed: Client secrets must be for a web or installed app." := by
  refine ⟨?_, ?_, ?_, ?_⟩ <;> decide

/-- C5 (amended): `validate_client_secret` correctly decides the presence
of the `installed` section and the four required fields, but no code path
invokes it: `authenticate` performs no local config validation, and runs
the exchange exactly once whenever flow construction accepts the config —
including for configs missing `client_secret`. -/
theorem C5_amended_no_local_config_validation (d : ClientSecretData) (env : Env)
    (credential : CredentialModel) (flow : AuthFlow) :
    (OAuth2Authenticator.validate_client_secret d = true ↔
      (d.hasInstalled = true ∧
        ∀ f ∈ ["client_id", "client_secret", "auth_uri", "token_uri"],
          d.installedKeys.contains f = true)) ∧
    (credential.is_oauth2 = true →
      env.fromClientConfig credential.auth_data = Except.ok flow →
      exchangeAttemptCount (OAuth2Authenticator.authenticate env credential).2 = 1) := by
  constructor
  · unfold OAuth2Authenticator.validate_client_secret
    by_cases hI : d.hasInstalled = true
    · simp [hI, List.all_eq_true]
    · simp [hI]
  · intro ho hcfg
    unfold OAuth2Authenticator.authenticate
    simp only [ho, not_true_eq_false, if_false]
    rw [hcfg]
    dsimp only
    rcases hr : env.runLocalServer flow with e | creds <;>
      simp [hr, exchangeAttemptCount]

/-- Witness for the amended C5: the well-formed config passes the field
check, and with the neutral environment the exchange runs exactly once for
the config missing `client_secret`. -/
theorem C5_witness :
    OAuth2Authenticator.validate_client_secret cfgFull = true ∧
    exchangeAttemptCount (OAuth2Authenticator.authenticate baseEnv credC5).2 = 1 :=
  ⟨(C5_amended_no_local_config_validation cfgFull baseEnv credC5 0).1.mpr
      ⟨rfl, by decide⟩,
   (C5_amended_no_local_config_validation cfgC5 baseEnv credC5 0).2 (by decide) rfl⟩

/-- Environment where the exchange succeeds but the profile lookup fails,
and the folders report 7 and 3 messages. -/
def envC6 : Env :=
  { baseEnv with
    peopleLookup := fun _ => Except.error "People API error",
    select := fun _ folder =>
      if folder = "INBOX" then Except.ok ("OK", "7") else Except.ok ("OK", "3") }

/-- A TOKEN-kind credential with a fully populated issuer config. -/
def credC6 : CredentialModel :=
  { auth_type := AuthType.OAUTH2, email := "", auth_data := AuthData.oauth cfgFull }

/-- C6 counterexample: when the profile lookup fails after a successful
exchange, authentication is indeed still successful and processing reaches
probing — but the sentinel address is `unknown@gmail.com`, not the
`unknown` value the claim states. -/
theorem C6_counterexample :
    ((OAuth2Authenticator.authenticate envC6 credC6).1.2.email = "unknown@gmail.com") ∧
    ((OAuth2Authenticator.authenticate envC6 credC6).1.2.email ≠ "unknown") ∧
    ((AuthManager.authenticate_and_count envC6 credC6).1.1.status = AuthStatus.SUCCESS) ∧
    ((AuthManager.authenticate_and_count envC6 credC6).1.1.inbox_count = 7) ∧
    ((AuthManager.authenticate_and_count envC6 credC6).1.1.email = "unknown@gmail.com") := by
  refine ⟨?_, ?_, ?_, ?_, ?_⟩ <;> decide

/-- C6 (amended): for a TOKEN credential whose exchange succeeds and whose
profile lookup fails, authentication is still reported successful, the
discovered address is the sentinel `unknown@gmail.com`, and processing
continues to session-open and folder probing, producing a SUCCESS outcome
with the probed counts — discovery failure is not fatal. -/
theorem C6_amended_discovery_failure_nonfatal (env : Env) (credential : CredentialModel)
    (flow : AuthFlow) (creds : Creds) (conn : Conn) (m : String)
    (ho : credential.is_oauth2 = true)
    (h1 : env.fromClientConfig credential.auth_data = Except.ok flow)
    (h2 : env.runLocalServer flow = Except.ok creds)
    (h3 : env.peopleLookup creds = Except.error m)
    (h4 : env.credsExpired creds = false)
    (h5 : env.connect OAuth2Authenticator.IMAP_SERVER OAuth2Authenticator.PORT =
      PyOutcome.ok conn)
    (h6 : ∀ s, env.xoauth conn s = Except.ok ()) :
    ((OAuth2Authenticator.authenticate env credential).1.1 = OAuthAuthResult.success creds) ∧
    ((OAuth2Authenticator.authenticate env credential).1.2.email = "unknown@gmail.com") ∧
    ((AuthManager.processOauth2 env credential).1.1 =
      ResultModel.create_success "unknown@gmail.com" "oauth2"
        (IMAPConnector.get_folder_count env (some conn) IMAPConnector.INBOX_FOLDER)
        (IMAPConnector.get_folder_count env (some conn) IMAPConnector.SENT_FOLDER)) := by
  have hauth : OAuth2Authenticator.authenticate env credential =
      ((OAuthAuthResult.success creds,
        credential.set_authenticated (some "unknown@gmail.com")), [NetEvent.exchangeAttempt]) := by
    unfold OAuth2Authenticator.authenticate
    simp only [ho, not_true_eq_false, if_false]
    rw [h1]
    dsimp only
    rw [h2]
    dsimp only
    unfold OAuth2Authenticator.userEmailOf
    rw [h3]
  have hemail : (credential.set_authenticated (some "unknown@gmail.com")).email =
      "unknown@gmail.com" := by
    simp [CredentialModel.set_authenticated]
  have hconn : ∀ em, OAuth2Authenticator.create_imap_connection env em creds =
      (ImapConnResult.success conn,
        [NetEvent.connectAttempt OAuth2Authenticator.IMAP_SERVER OAuth2Authenticator.PORT]) := by
    intro em
    unfold OAuth2Authenticator.create_imap_connection
    simp [h4, h5, h6]
  refine ⟨by rw [hauth], by rw [hauth]; exact hemail, ?_⟩
  unfold AuthManager.processOauth2
  rw [hauth]
  dsimp only
  rw [hconn, hemail]
  rfl

/-- Witness for the amended C6 at the concrete scenario environment. -/
theorem C6_witness :
    ((OAuth2Authenticator.authenticate envC6 credC6).1.2.email = "unknown@gmail.com") ∧
    ((AuthManager.processOauth2 envC6 credC6).1.1 =
      ResultModel.create_success "unknown@gmail.com" "oauth2" 7 3) := by
  have h := C6_amended_discovery_failure_nonfatal envC6 credC6 0 0 1 "People API error"
    (by decide) rfl rfl rfl rfl rfl (fun s => rfl)
  refine ⟨h.2.1, ?_⟩
  rw [h.2.2]
  decide

/-- Every credential produced from one parsed SECRET line is structurally
well-formed. -/
theorem parseLineWellFormed (line_num : Nat) (line : String) (c : CredentialModel)
    (h : CredentialParser.parseAppPasswordLine line_num line = Except.ok c) :
    structurallyWellFormed c = true := by
  unfold CredentialParser.parseAppPasswordLine at h
  by_cases h1 : ':' ∈ line.data
  · by_cases h2 : pyStrip (pySplitOnceColon line).1 = "" ∨ pyStrip (pySplitOnceColon line).2 = ""
    · simp [h1, h2] at h
    · obtain ⟨hema, hpw⟩ := not_or.mp h2
      by_cases h3 : '@' ∈ (pyStrip (pySplitOnceColon line).1).data
      · simp [h1, hema, hpw, h3] at h
        subst h
        simp [structurallyWellFormed, CredentialModel.from_app_password, hema, hpw, h3]
      · simp [h1, hema, hpw, h3] at h
  · simp [h1] at h

/-- Every credential in a successful SECRET-text parse is structurally
well-formed (induction over the line list). -/
theorem parseLinesAuxWellFormed (lines : List String) : ∀ (n : Nat)
    (creds : List CredentialModel),
    CredentialParser.parseLinesAux n lines = Except.ok creds →
    ∀ c ∈ creds, structurallyWellFormed c = true := by
  induction lines with
  | nil =>
    intro n creds h c hc
    unfold CredentialParser.parseLinesAux at h
    simp only [Except.ok.injEq] at h
    subst h
    simp at hc
  | cons line rest ih =>
    intro n creds h c hc
    unfold CredentialParser.parseLinesAux at h
    rcases hl : CredentialParser.parseAppPasswordLine n line with e | c1
    · rw [hl] at h; simp at h
    · rw [hl] at h
      dsimp only at h
      rcases hr : CredentialParser.parseLinesAux (n + 1) rest with e | cs
      · rw [hr] at h; simp at h
      · rw [hr] at h
        simp only [Except.ok.injEq] at h
        subst h
        rcases List.mem_cons.mp hc with hc1 | hc1
        · subst hc1
          exact parseLineWellFormed n line c hl
        · exact ih (n + 1) cs hr c hc1

/-- Every credential produced from a successful OAuth2 JSON parse is
structurally well-formed. -/
theorem parseOauthJsonWellFormed (d : ClientSecretData) (c : CredentialModel)
    (h : CredentialParser.parse_oauth2_json d = Except.ok c) :
    structurallyWellFormed c = true := by
  unfold CredentialParser.parse_oauth2_json at h
  by_cases hI : d.hasInstalled = true
  · simp only [hI, not_true_eq_false, if_false] at h
    rcases hf : ["client_id", "client_secret", "auth_uri", "token_uri"].find?
        (fun field => ! d.installedKeys.contains field) with - | fld
    · rw [hf] at h
      simp only [Except.ok.injEq] at h
      subst h
      have hall := List.find?_eq_none.mp hf
      simp only [structurallyWellFormed, CredentialModel.from_oauth2_data]
      unfold CredentialParser.validate_oauth2_client_secret
      simp only [hI, not_true_eq_false, if_false, List.all_eq_true]
      intro f hfmem
      have := hall f hfmem
      simpa using this
    · rw [hf] at h; simp at h
  · simp [hI] at h

/-- C8 (amended): malformed SECRET text never becomes a credential record —
the parse aborts with an error instead, and every record of a successful
parse is structurally well-formed; but a malformed TOKEN file DOES become a
credential record: each unreadable or invalid file is converted into a
placeholder record with empty issuer data, marked FAILED, and appended to
the batch handed to the core. -/
theorem C8_amended_parser_wellformedness (text : String) (creds : List CredentialModel)
    (files : List UploadFile) :
    (CredentialParser.parse_app_password_text text = Except.ok creds →
      ∀ c ∈ creds, structurallyWellFormed c = true) ∧
    (∀ c ∈ CredentialParser.parse_oauth2_files files,
      structurallyWellFormed c = true ∨ c.status = CredentialStatus.FAILED) := by
  constructor
  · intro h c hc
    exact parseLinesAuxWellFormed _ 1 creds h c hc
  · intro c hc
    unfold CredentialParser.parse_oauth2_files at hc
    rcases List.mem_map.mp hc with ⟨f, hf, hfc⟩
    rcases hcont : f.content with e | d
    · rw [hcont] at hfc
      dsimp only at hfc
      right
      rw [← hfc]
      rfl
    · rw [hcont] at hfc
      dsimp only at hfc
      rcases hj : CredentialParser.parse_oauth2_json d with e | cred
      · rw [hj] at hfc
        dsimp only at hfc
        right
        rw [← hfc]
        rfl
      · rw [hj] at hfc
        dsimp only at hfc
        left
        rw [← hfc]
        exact parseOauthJsonWellFormed d cred hj

/-- An uploaded file whose content cannot be read or decoded. -/
def badFile : UploadFile := { name := "bad.json", content := Except.error "boom" }

/-- C8 counterexample: a malformed OAuth2 file DOES become a credential
record: the parser returns one placeholder CredentialModel for it, whose
issuer data has no required fields, so not every record handed to the core
is structurally well-formed. -/
theorem C8_counterexample :
    (CredentialParser.parse_oauth2_files [badFile]).length = 1 ∧
    (CredentialParser.parse_oauth2_files [badFile]).all structurallyWellFormed = false ∧
    (CredentialParser.parse_oauth2_files [badFile]).map CredentialModel.auth_data =
      [AuthData.oauth { hasInstalled := false, installedKeys := [] }] := by
  refine ⟨?_, ?_, ?_⟩ <;> decide

/-- Witness for the amended C8: a concrete well-formed SECRET line parses
into a well-formed record, and the placeholder record of a concrete bad
file is FAILED. -/
theorem C8_witness :
    structurallyWellFormed (CredentialModel.from_app_password "a@b.com" "pw") = true ∧
    (structurallyWellFormed ((CredentialModel.from_oauth2_data
        { hasInstalled := false, installedKeys := [] }).set_failed
        "File parsing error: boom") = true ∨
      ((CredentialModel.from_oauth2_data
        { hasInstalled := false, installedKeys := [] }).set_failed
        "File parsing error: boom").status = CredentialStatus.FAILED) :=
  ⟨(C8_amended_parser_wellformedness "a@b.com:pw"
      [CredentialModel.from_app_password "a@b.com" "pw"] []).1 (by decide)
      (CredentialModel.from_app_password "a@b.com" "pw") (by decide),
   (C8_amended_parser_wellformedness "" [] [badFile]).2
      ((CredentialModel.from_oauth2_data
        { hasInstalled := false, installedKeys := [] }).set_failed
        "File parsing error: boom") (by decide)⟩
